import Mathlib

/-!
Verification of the Ax adaptive-experimentation core against its specification.

The development shallowly embeds the validation logic of
`ax/core/optimization_config.py` and `ax/core/parameter_constraint.py`, plus the
stateful-resumption contract of the quasi-random generator exercised by
`ax/generators/tests/test_sobol.py`.  Python floats are modelled as rationals
(`ℚ`); Python exceptions are modelled with `Except String`; Python's stable
`sorted` and `itertools.groupby` are modelled by a stable insertion sort and a
maximal-run grouping over the sort key.
-/

deriving instance DecidableEq for Except

namespace AxVerify

/-- Lexicographic order on character lists, modelling Python's code-point
comparison of strings (used by `sorted` with a string key). -/
def charLexLe : List Char → List Char → Bool
  | [], _ => true
  | _ :: _, [] => false
  | c :: cs, d :: ds => if c = d then charLexLe cs ds else decide (c < d)

/-- String comparison used as the sort key order, modelling Python `str <=`. -/
def strLe (a b : String) : Bool := charLexLe a.data b.data

/-- Stable insertion of an element into a list sorted by `le`; an element is
placed before the first existing element it is `le`-below, so elements with
equal keys keep their original relative order. -/
def orderedInsertBy {α : Type} (le : α → α → Bool) (a : α) : List α → List α
  | [] => [a]
  | b :: l => if le a b then a :: b :: l else b :: orderedInsertBy le a l

/-- Stable insertion sort, modelling Python's stable `sorted`. -/
def insertionSortBy {α : Type} (le : α → α → Bool) : List α → List α
  | [] => []
  | a :: l => orderedInsertBy le a (insertionSortBy le l)

/-- Accumulator loop for `groupRunsBy`; `curGrp` holds the current run in
reverse order. -/
def groupRunsAux {α : Type} (key : α → String) (curKey : String) (curGrp : List α) :
    List α → List (String × List α)
  | [] => [(curKey, curGrp.reverse)]
  | d :: rest =>
    if key d == curKey then groupRunsAux key curKey (d :: curGrp) rest
    else (curKey, curGrp.reverse) :: groupRunsAux key (key d) [d] rest

/-- Group a list into maximal runs of elements sharing the same `key`,
modelling Python's `itertools.groupby` (which, applied after a sort by the
same key, groups by key). -/
def groupRunsBy {α : Type} (key : α → String) : List α → List (String × List α)
  | [] => []
  | c :: rest => groupRunsAux key (key c) [c] rest

/-- Modelled from the spec: `ax/core/metric.py` is not under `src/`.  Spec §3
"Metric": a named observable with a `lower_is_better` polarity flag. -/
structure Metric where
  name : String
  lower_is_better : Option Bool := none
deriving DecidableEq

/-- Modelled from the spec: `ax/core/types.py` is not under `src/`.  The
comparison operator enum (≤ / ≥) referenced throughout the constraint model. -/
inductive ComparisonOp
  | GEQ
  | LEQ
deriving DecidableEq

/-- Modelled from the spec: `ax/core/parameter.py` is not under `src/`.  Spec
§3 "Parameter": range parameters carry bounds and a log-scale flag. -/
structure RangeParameterData where
  name : String
  lower : ℚ
  upper : ℚ
  log_scale : Bool := false
deriving DecidableEq

/-- Modelled from the spec: `ax/core/parameter.py` is not under `src/`.  Spec
§3 "Parameter": domain kind is range, choice or fixed; constraint validation
only inspects the kind, the name and the log-scale flag, so choice and fixed
parameters are reduced to their names. -/
inductive Parameter
  | range (p : RangeParameterData)
  | choice (name : String)
  | fixed (name : String)
deriving DecidableEq

def Parameter.name : Parameter → String
  | .range p => p.name
  | .choice n => n
  | .fixed n => n

/-- Modelled from the spec: `Parameter.clone` (in `ax/core/parameter.py`, not
under `src/`) returns an equal copy, so it is the identity in this model. -/
def Parameter.clone (p : Parameter) : Parameter := p

/-- Per-parameter loop of `validate_constraint_parameters`
(`ax/core/parameter_constraint.py:266`): each parameter must be a
`RangeParameter` and must not be log-scaled. -/
def validateParametersLoop : List Parameter → Except String Unit
  | [] => .ok ()
  | p :: rest =>
    match p with
    | .range rp =>
      if rp.log_scale then
        .error "Parameter constraints not allowed on log scale parameters."
      else validateParametersLoop rest
    | _ => .error "All parameters in a parameter constraint must be RangeParameters."

/-- Embedding of `validate_constraint_parameters`
(`ax/core/parameter_constraint.py:253`): duplicate-name check (Python builds a
set of names and compares cardinalities) followed by the per-parameter loop. -/
def validate_constraint_parameters (parameters : List Parameter) : Except String Unit :=
  if ((parameters.map Parameter.name).dedup).length ≠ parameters.length then
    .error "Duplicate parameter in constraint."
  else validateParametersLoop parameters

/-- Embedding of the `ParameterConstraint` base-class data
(`ax/core/parameter_constraint.py:18`): a weight map (Python dict, modelled as
an association list in insertion order) and a bound.  `bound` is the stored
`_bound`, which the inherited `bound` property returns unchanged. -/
structure ParameterConstraint where
  constraint_dict : List (String × ℚ)
  bound : ℚ
deriving DecidableEq

/-- Embedding of `ParameterConstraint.check`
(`ax/core/parameter_constraint.py:55`): raise on the first referenced name
missing from `parameter_dict`, otherwise compare the weighted sum with
`bound + 1e-8`. -/
def ParameterConstraint.check (c : ParameterConstraint)
    (parameter_dict : List (String × ℚ)) : Except String Bool :=
  match c.constraint_dict.find? (fun kv => (List.lookup kv.1 parameter_dict).isNone) with
  | some kv => .error ("`" ++ kv.1 ++ "` not present in param_dict.")
  | none =>
    let weighted_sum : ℚ :=
      (c.constraint_dict.map
        (fun kv => ((List.lookup kv.1 parameter_dict).getD 0) * kv.2)).sum
    .ok (decide (weighted_sum ≤ c.bound + 1 / 100000000))

/-- The weighted sum computed inside `ParameterConstraint.check`
(`ax/core/parameter_constraint.py:71`). -/
def weightedSum (c : ParameterConstraint) (parameter_dict : List (String × ℚ)) : ℚ :=
  (c.constraint_dict.map
    (fun kv => ((List.lookup kv.1 parameter_dict).getD 0) * kv.2)).sum

/-- Embedding of `OrderConstraint.__init__` together with its
`constraint_dict` property (`ax/core/parameter_constraint.py:108` and `:141`):
after validating the two parameters, the constraint `lower <= upper` is the
linear form `1·lower + (-1)·upper ≤ 0`. -/
def OrderConstraint.make (lower_parameter upper_parameter : Parameter) :
    Except String ParameterConstraint := do
  validate_constraint_parameters [lower_parameter, upper_parameter]
  .ok { constraint_dict := [(lower_parameter.name, 1), (upper_parameter.name, -1)]
        bound := 0 }

/-- Embedding of the `SumConstraint` instance state
(`ax/core/parameter_constraint.py:167`): `bound` is the stored `_bound`
(sign-multiplied at construction), which the inherited `bound` property
returns unchanged. -/
structure SumConstraint where
  parameters : List Parameter
  is_upper_bound : Bool
  bound : ℚ
  constraint_dict : List (String × ℚ)
deriving DecidableEq

/-- Embedding of `SumConstraint._inequality_weight`
(`ax/core/parameter_constraint.py:232`): +1 for an upper bound, -1 for a
lower bound. -/
def SumConstraint.inequality_weight (c : SumConstraint) : ℚ :=
  if c.is_upper_bound then 1 else -1

/-- Embedding of `SumConstraint.__init__`
(`ax/core/parameter_constraint.py:170`): validate the parameters, then store
`_bound = weight * bound` and give every parameter the weight. -/
def SumConstraint.make (parameters : List Parameter) (is_upper_bound : Bool)
    (bound : ℚ) : Except String SumConstraint := do
  validate_constraint_parameters parameters
  let w : ℚ := if is_upper_bound then 1 else -1
  .ok { parameters := parameters
        is_upper_bound := is_upper_bound
        bound := w * bound
        constraint_dict := parameters.map (fun p => (p.name, w)) }

/-- Embedding of `SumConstraint.op` (`ax/core/parameter_constraint.py:200`):
`LEQ` for an upper bound, `GEQ` for a lower bound. -/
def SumConstraint.op (c : SumConstraint) : ComparisonOp :=
  if c.is_upper_bound then ComparisonOp.LEQ else ComparisonOp.GEQ

/-- Embedding of `SumConstraint.clone` (`ax/core/parameter_constraint.py:210`):
re-run the constructor on cloned parameters, the same direction flag, and the
re-weighted bound `_inequality_weight * _bound`. -/
def SumConstraint.clone (c : SumConstraint) : Except String SumConstraint :=
  SumConstraint.make (c.parameters.map Parameter.clone) c.is_upper_bound
    (c.inequality_weight * c.bound)

/-- Modelled from the spec: `ax/core/objective.py` is not under `src/`.  Spec
§3 "Objective": a single objective wraps a Metric plus a `minimize` flag. -/
structure SingleObjectiveData where
  metric : Metric
  minimize : Bool
deriving DecidableEq

/-- Modelled from the spec: `ax/core/objective.py` is not under `src/`.  Spec
§3 "Objective": an objective is single (Metric + minimize), a MultiObjective
(list of (Metric, minimize) pairs), or a ScalarizedObjective (weighted linear
combination of Metrics). -/
inductive Objective
  | single (data : SingleObjectiveData)
  | multi (objectives : List SingleObjectiveData)
  | scalarized (metrics : List Metric) (weights : List ℚ) (minimize : Bool)
deriving DecidableEq

/-- Modelled from the spec: the metrics referenced by an objective (spec §3
"Objective", §4.2 step 1). -/
def Objective.metrics : Objective → List Metric
  | .single data => [data.metric]
  | .multi objectives => objectives.map SingleObjectiveData.metric
  | .scalarized metrics _ _ => metrics

/-- Modelled from the spec: `Objective.get_unconstrainable_metrics`
(`ax/core/objective.py`, not under `src/`).  Spec §4.2 step 1: "Collect metric
names referenced by the objective (unconstrainable set)". -/
def Objective.get_unconstrainable_metrics (o : Objective) : List Metric :=
  o.metrics

/-- Modelled from the spec: `ax/core/outcome_constraint.py` is not under
`src/`.  Spec §3 "OutcomeConstraint": a Metric, a comparison operator, a
bound, and a relative flag. -/
structure OutcomeConstraint where
  metric : Metric
  op : ComparisonOp
  bound : ℚ
  relative : Bool := true
deriving DecidableEq

/-- Modelled from the spec: the scalarized variant of an outcome constraint
(spec §3: "Scalarized variant constrains a weighted combination of metrics");
it has no single `metric` of its own. -/
structure ScalarizedOutcomeConstraintData where
  metrics : List Metric
  weights : List ℚ
  op : ComparisonOp
  bound : ℚ
  relative : Bool := true
deriving DecidableEq

/-- An element of an `outcome_constraints` list: either a plain
`OutcomeConstraint` or a `ScalarizedOutcomeConstraint` (Python subclass,
distinguished by `isinstance` in `optimization_config.py:187`). -/
inductive AnyOutcomeConstraint
  | plain (c : OutcomeConstraint)
  | scalarized (c : ScalarizedOutcomeConstraintData)
deriving DecidableEq

/-- Modelled from the spec: `ax/core/outcome_constraint.py` is not under
`src/`.  Spec §3 "ObjectiveThreshold": a Metric, bound, operator, relative
flag. -/
structure ObjectiveThreshold where
  metric : Metric
  bound : ℚ
  op : ComparisonOp
  relative : Bool := true
deriving DecidableEq

/-- Per-group body of the loop in
`OptimizationConfig._validate_outcome_constraints`
(`ax/core/optimization_config.py:214`): two constraints on a metric must have
different ops and the GEQ bound must be strictly below the LEQ bound; more
than two constraints is a duplicate error. -/
def checkConstraintGroup (metric_name : String) :
    List OutcomeConstraint → Except String Unit
  | [] => .ok ()
  | [_] => .ok ()
  | [c0, c1] =>
    if c0.op = c1.op then .error ("Duplicate outcome constraints " ++ metric_name)
    else
      let lower_bound := if c0.op = ComparisonOp.GEQ then c0.bound else c1.bound
      let upper_bound := if c0.op = ComparisonOp.GEQ then c1.bound else c0.bound
      if lower_bound ≥ upper_bound then
        .error ("Lower bound " ++ toString lower_bound ++ " is >= upper bound "
          ++ toString upper_bound ++ " for " ++ metric_name)
      else .ok ()
  | _ => .error ("Duplicate outcome constraints " ++ metric_name)

/-- The `for ... in groupby(...)` loop of
`OptimizationConfig._validate_outcome_constraints`
(`ax/core/optimization_config.py:211`): check every metric-name group,
stopping at the first error. -/
def checkAllConstraintGroups : List (String × List OutcomeConstraint) → Except String Unit
  | [] => .ok ()
  | (metric_name, constraints) :: rest => do
    checkConstraintGroup metric_name constraints
    checkAllConstraintGroups rest

/-- The metric-name groups formed inside
`OptimizationConfig._validate_outcome_constraints`
(`ax/core/optimization_config.py:210`): a stable sort by metric name followed
by `itertools.groupby` on the metric name. -/
def constraintGroups (outcome_constraints : List OutcomeConstraint) :
    List (String × List OutcomeConstraint) :=
  groupRunsBy (fun oc => oc.metric.name)
    (insertionSortBy (fun a b => strLe a.metric.name b.metric.name) outcome_constraints)

/-- Embedding of `OptimizationConfig._validate_outcome_constraints`
(`ax/core/optimization_config.py:195`): first reject any constraint on an
unconstrainable (objective) metric, then validate the per-metric groups. -/
def validate_outcome_constraints (unconstrainable_metrics : List Metric)
    (outcome_constraints : List OutcomeConstraint) : Except String Unit :=
  let constraint_metrics := outcome_constraints.map (fun c => c.metric.name)
  if unconstrainable_metrics.any (fun m => constraint_metrics.contains m.name) then
    .error "Cannot constrain on objective metric."
  else checkAllConstraintGroups (constraintGroups outcome_constraints)

/-- The `isinstance(constraint, ScalarizedOutcomeConstraint) is False` filter
of `OptimizationConfig._validate_transformed_optimization_config`
(`ax/core/optimization_config.py:184`). -/
def plainConstraintsOf (outcome_constraints : List AnyOutcomeConstraint) :
    List OutcomeConstraint :=
  outcome_constraints.filterMap (fun c =>
    match c with
    | .plain p => some p
    | .scalarized _ => none)

/-- Whether an objective is exactly a `MultiObjective` (the Python guard is
`type(objective) is MultiObjective`, `ax/core/optimization_config.py:176`). -/
def Objective.isMulti : Objective → Bool
  | .multi _ => true
  | _ => false

/-- Embedding of the static
`OptimizationConfig._validate_transformed_optimization_config`
(`ax/core/optimization_config.py:156`): reject a `MultiObjective` outright,
drop `ScalarizedOutcomeConstraint`s, then validate the remaining constraints
against the objective's unconstrainable metrics.  The `risk_measure` argument
is accepted and never inspected, as in the source. -/
def OptimizationConfig.validateTransformed (objective : Objective)
    (outcome_constraints : List AnyOutcomeConstraint)
    (_risk_measure : Option String := none) : Except String Unit :=
  match objective with
  | .multi _ =>
    .error "OptimizationConfig does not support MultiObjective. Use MultiObjectiveOptimizationConfig instead."
  | _ =>
    validate_outcome_constraints objective.get_unconstrainable_metrics
      (plainConstraintsOf outcome_constraints)

/-- Embedding of the `objectives_by_name` dict built in
`MultiObjectiveOptimizationConfig._validate_transformed_optimization_config`
(`ax/core/optimization_config.py:405`); a Python dict comprehension keeps the
last entry for a repeated key, so lookup (which finds the first match) is done
on the reversed association list. -/
def objectivesByName (objectives : List SingleObjectiveData) :
    List (String × SingleObjectiveData) :=
  (objectives.map (fun o => (o.metric.name, o))).reverse

/-- Loop of `check_objective_thresholds_match_objectives`
(`ax/core/optimization_config.py:439`), with the accumulated
`obj_thresh_metrics` set made explicit: each threshold's metric must be an
objective metric, must not repeat, and its bound direction (`LEQ` means
"bounds from above") must equal the objective's `minimize` flag.  The Python
error messages interpolate `repr(threshold)`; the model keeps their fixed
parts. -/
def checkThresholdsLoop (objectives_by_name : List (String × SingleObjectiveData))
    (obj_thresh_metrics : List String) :
    List ObjectiveThreshold → Except String Unit
  | [] => .ok ()
  | threshold :: rest =>
    match List.lookup threshold.metric.name objectives_by_name with
    | none =>
      .error ("Objective threshold is on metric '" ++ threshold.metric.name
        ++ "', but that metric is not among the objectives.")
    | some objective =>
      if threshold.metric.name ∈ obj_thresh_metrics then
        .error ("More than one objective threshold specified for metric "
          ++ threshold.metric.name ++ ".")
      else if objective.minimize = (threshold.op == ComparisonOp.LEQ) then
        checkThresholdsLoop objectives_by_name
          (threshold.metric.name :: obj_thresh_metrics) rest
      else
        .error ("Objective threshold on " ++ threshold.metric.name ++ " bounds from "
          ++ (if threshold.op == ComparisonOp.LEQ then "above" else "below") ++ " but "
          ++ threshold.metric.name ++ " is being "
          ++ (if objective.minimize then "minimized" else "maximized") ++ ".")

/-- Embedding of `check_objective_thresholds_match_objectives`
(`ax/core/optimization_config.py:431`). -/
def check_objective_thresholds_match_objectives
    (objectives_by_name : List (String × SingleObjectiveData))
    (objective_thresholds : List ObjectiveThreshold) : Except String Unit :=
  checkThresholdsLoop objectives_by_name [] objective_thresholds

/-- Embedding of the static
`MultiObjectiveOptimizationConfig._validate_transformed_optimization_config`
(`ax/core/optimization_config.py:373`): the objective must be a
`MultiObjective` or `ScalarizedObjective`; for a `MultiObjective` the
thresholds are checked against the objectives; then the outcome constraints
are validated.  The source passes the constraint list unfiltered; accessing
`.metric` on a `ScalarizedOutcomeConstraint` would raise inside
`ax/core/outcome_constraint.py` (not under `src/`), so this model takes plain
constraints only. -/
def MultiObjectiveOptimizationConfig.validateTransformed (objective : Objective)
    (outcome_constraints : List OutcomeConstraint)
    (objective_thresholds : List ObjectiveThreshold)
    (_risk_measure : Option String := none) : Except String Unit := do
  match objective with
  | .single _ =>
    .error "`MultiObjectiveOptimizationConfig` requires an objective of type `MultiObjective` or `ScalarizedObjective`. Use `OptimizationConfig` instead if using a single-metric objective."
  | .multi objectives =>
    check_objective_thresholds_match_objectives (objectivesByName objectives)
      objective_thresholds
    validate_outcome_constraints
      (Objective.get_unconstrainable_metrics (.multi objectives)) outcome_constraints
  | .scalarized metrics weights minimize =>
    validate_outcome_constraints
      (Objective.get_unconstrainable_metrics (.scalarized metrics weights minimize))
      outcome_constraints

/-- The stored state of an `OptimizationConfig`
(`ax/core/optimization_config.py:68`): objective, outcome constraints and an
optional risk measure (opaque to validation, modelled as a string). -/
structure OptimizationConfigS where
  objective : Objective
  outcome_constraints : List AnyOutcomeConstraint
  risk_measure : Option String := none
deriving DecidableEq

/-- Embedding of `OptimizationConfig.__init__`
(`ax/core/optimization_config.py:46`): default the constraint list, validate,
then store the fields.  The `Except` result makes the constructor atomic: on
error no object is produced. -/
def OptimizationConfig.make (objective : Objective)
    (outcome_constraints : Option (List AnyOutcomeConstraint) := none)
    (risk_measure : Option String := none) : Except String OptimizationConfigS := do
  let constraints := outcome_constraints.getD []
  OptimizationConfig.validateTransformed objective constraints risk_measure
  .ok { objective := objective
        outcome_constraints := constraints
        risk_measure := risk_measure }

/-- Embedding of the `OptimizationConfig.objective` setter
(`ax/core/optimization_config.py:104`): validate the new objective against the
stored constraints and risk measure, then store it.  Validation precedes the
update, so an error leaves the config unchanged. -/
def OptimizationConfig.setObjective (cfg : OptimizationConfigS) (objective : Objective) :
    Except String OptimizationConfigS := do
  OptimizationConfig.validateTransformed objective cfg.outcome_constraints cfg.risk_measure
  .ok { cfg with objective := objective }

/-- Embedding of the `OptimizationConfig.outcome_constraints` setter
(`ax/core/optimization_config.py:146`). -/
def OptimizationConfig.setOutcomeConstraints (cfg : OptimizationConfigS)
    (outcome_constraints : List AnyOutcomeConstraint) : Except String OptimizationConfigS := do
  OptimizationConfig.validateTransformed cfg.objective outcome_constraints cfg.risk_measure
  .ok { cfg with outcome_constraints := outcome_constraints }

/-- The Python call semantics of a property setter: on an exception the object
keeps its previous state. -/
def OptimizationConfig.trySetObjective (cfg : OptimizationConfigS)
    (objective : Objective) : OptimizationConfigS :=
  match OptimizationConfig.setObjective cfg objective with
  | .ok cfg2 => cfg2
  | .error _ => cfg

/-- The Python call semantics of the `outcome_constraints` setter: on an
exception the object keeps its previous state. -/
def OptimizationConfig.trySetOutcomeConstraints (cfg : OptimizationConfigS)
    (outcome_constraints : List AnyOutcomeConstraint) : OptimizationConfigS :=
  match OptimizationConfig.setOutcomeConstraints cfg outcome_constraints with
  | .ok cfg2 => cfg2
  | .error _ => cfg

/-- The stored state of a `MultiObjectiveOptimizationConfig`
(`ax/core/optimization_config.py:291`). -/
structure MultiObjectiveOptimizationConfigS where
  objective : Objective
  outcome_constraints : List OutcomeConstraint
  objective_thresholds : List ObjectiveThreshold
  risk_measure : Option String := none
deriving DecidableEq

/-- Embedding of `MultiObjectiveOptimizationConfig.__init__`
(`ax/core/optimization_config.py:262`): default the constraint and threshold
lists, validate everything, then store the fields. -/
def MultiObjectiveOptimizationConfig.make (objective : Objective)
    (outcome_constraints : Option (List OutcomeConstraint) := none)
    (objective_thresholds : Option (List ObjectiveThreshold) := none)
    (risk_measure : Option String := none) :
    Except String MultiObjectiveOptimizationConfigS := do
  let constraints := outcome_constraints.getD []
  let thresholds := objective_thresholds.getD []
  MultiObjectiveOptimizationConfig.validateTransformed objective constraints thresholds
    risk_measure
  .ok { objective := objective
        outcome_constraints := constraints
        objective_thresholds := thresholds
        risk_measure := risk_measure }

/-- Embedding of the `MultiObjectiveOptimizationConfig.objective` setter
(`ax/core/optimization_config.py:333`): validates with the stored constraints
and thresholds. -/
def MultiObjectiveOptimizationConfig.setObjective
    (cfg : MultiObjectiveOptimizationConfigS) (objective : Objective) :
    Except String MultiObjectiveOptimizationConfigS := do
  MultiObjectiveOptimizationConfig.validateTransformed objective
    cfg.outcome_constraints cfg.objective_thresholds cfg.risk_measure
  .ok { cfg with objective := objective }

/-- Embedding of the inherited `outcome_constraints` setter as dispatched on a
`MultiObjectiveOptimizationConfig` (`ax/core/optimization_config.py:146`
calling the override at `:373`): the call passes no `objective_thresholds`
keyword, so the thresholds are validated as the empty list. -/
def MultiObjectiveOptimizationConfig.setOutcomeConstraints
    (cfg : MultiObjectiveOptimizationConfigS)
    (outcome_constraints : List OutcomeConstraint) :
    Except String MultiObjectiveOptimizationConfigS := do
  MultiObjectiveOptimizationConfig.validateTransformed cfg.objective
    outcome_constraints [] cfg.risk_measure
  .ok { cfg with outcome_constraints := outcome_constraints }

/-- Embedding of the `objective_thresholds` setter
(`ax/core/optimization_config.py:354`): the call passes no
`outcome_constraints` keyword, so the constraints are validated as the empty
list. -/
def MultiObjectiveOptimizationConfig.setObjectiveThresholds
    (cfg : MultiObjectiveOptimizationConfigS)
    (objective_thresholds : List ObjectiveThreshold) :
    Except String MultiObjectiveOptimizationConfigS := do
  MultiObjectiveOptimizationConfig.validateTransformed cfg.objective
    [] objective_thresholds cfg.risk_measure
  .ok { cfg with objective_thresholds := objective_thresholds }

/-- The Python call semantics of the multi-objective setters: on an exception
the object keeps its previous state. -/
def MultiObjectiveOptimizationConfig.trySetObjectiveThresholds
    (cfg : MultiObjectiveOptimizationConfigS)
    (objective_thresholds : List ObjectiveThreshold) : MultiObjectiveOptimizationConfigS :=
  match MultiObjectiveOptimizationConfig.setObjectiveThresholds cfg objective_thresholds with
  | .ok cfg2 => cfg2
  | .error _ => cfg

/-- Validity of a stored plain config: its fields pass the constructor's
validation. -/
def OptimizationConfigS.Valid (cfg : OptimizationConfigS) : Prop :=
  OptimizationConfig.validateTransformed cfg.objective cfg.outcome_constraints
    cfg.risk_measure = .ok ()

/-- Validity of a stored multi-objective config: its fields pass the
constructor's validation. -/
def MultiObjectiveOptimizationConfigS.Valid
    (cfg : MultiObjectiveOptimizationConfigS) : Prop :=
  MultiObjectiveOptimizationConfig.validateTransformed cfg.objective
    cfg.outcome_constraints cfg.objective_thresholds cfg.risk_measure = .ok ()

/-- Modelled from the spec: the Sobol generator implementation
(`ax/generators/random/sobol.py`) is not under `src/`; only its tests are.
Spec §4.3 steps 4-5 and §9 describe a stateful quasi-random generator whose
proposals are a deterministic function of the random seed and the sequence
position, persisted as `seed` plus `init_position` (as the tests read via
`_get_state()`), and resumed by re-instantiating with the saved position.
The state is the seed and the number of points generated so far. -/
structure SobolState where
  seed : Nat
  init_position : Nat
deriving DecidableEq

/-- Modelled from the spec: one `gen(n)` call of the quasi-random generator.
`engine` is the underlying deterministic map from (seed, index) to a point
(spec §9: "explicit seed + position (offset) state passed into each
generation call"); a call emits the points at the next `n` positions and
advances `init_position` by `n`.  Deduplication against already-generated
points is not modelled. -/
def SobolState.gen (engine : Nat → Nat → ℚ) (g : SobolState) (n : Nat) :
    List ℚ × SobolState :=
  ((List.range n).map (fun i => engine g.seed (g.init_position + i)),
    { g with init_position := g.init_position + n })

/-- Whether a constraint-list element is a `ScalarizedOutcomeConstraint`,
modelling the `isinstance` test of `ax/core/optimization_config.py:187`. -/
def AnyOutcomeConstraint.isScalarized : AnyOutcomeConstraint → Bool
  | .plain _ => false
  | .scalarized _ => true

/-- The Python call semantics of the multi-objective `objective` setter: on an
exception the object keeps its previous state. -/
def MultiObjectiveOptimizationConfig.trySetObjective
    (cfg : MultiObjectiveOptimizationConfigS) (objective : Objective) :
    MultiObjectiveOptimizationConfigS :=
  match MultiObjectiveOptimizationConfig.setObjective cfg objective with
  | .ok cfg2 => cfg2
  | .error _ => cfg

/-- The Python call semantics of the multi-objective `outcome_constraints`
setter: on an exception the object keeps its previous state. -/
def MultiObjectiveOptimizationConfig.trySetOutcomeConstraints
    (cfg : MultiObjectiveOptimizationConfigS)
    (outcome_constraints : List OutcomeConstraint) : MultiObjectiveOptimizationConfigS :=
  match MultiObjectiveOptimizationConfig.setOutcomeConstraints cfg outcome_constraints with
  | .ok cfg2 => cfg2
  | .error _ => cfg

/-- Spec-side acceptance condition for one metric-name group of outcome
constraints, following the claim's wording: one constraint is always
accepted; two constraints are accepted exactly when their operators differ
and the GEQ constraint's bound is strictly below the LEQ constraint's bound;
more than two are rejected.  (The empty group never arises from grouping.) -/
def groupAcceptedSpec : List OutcomeConstraint → Bool
  | [] => true
  | [_] => true
  | [c0, c1] =>
    let geq_bound := if c0.op = ComparisonOp.GEQ then c0.bound else c1.bound
    let leq_bound := if c0.op = ComparisonOp.GEQ then c1.bound else c0.bound
    decide (c0.op ≠ c1.op) && decide (geq_bound < leq_bound)
  | _ => false

/-- Fixture: a plain range parameter named `x`, used by concrete witnesses. -/
def xRangeParameter : Parameter := .range { name := "x", lower := 0, upper := 1 }

/-- Fixture: the `SumConstraint` state produced by constructing a lower-bound
sum constraint over `x` with user bound `5`. -/
def lowerSumExample : SumConstraint :=
  { parameters := [xRangeParameter]
    is_upper_bound := false
    bound := (-1 : ℚ) * 5
    constraint_dict := [("x", -1)] }

/-- Fixture: the constructor call for a lower-bound sum constraint with user
bound `5`, whose public `bound` accessor exhibits the sign flip. -/
def lowerSumConstruction : Except String SumConstraint :=
  SumConstraint.make [xRangeParameter] false 5

/-- Fixture: the range parameter `x1` of the order-constraint scenario
(range [0.1, 0.2]). -/
def x1Parameter : Parameter := .range { name := "x1", lower := mkRat 1 10, upper := mkRat 2 10 }

/-- Fixture: the range parameter `x2` of the order-constraint scenario
(range [1, 2]). -/
def x2Parameter : Parameter := .range { name := "x2", lower := 1, upper := 2 }

/-- Fixture: the base-class view of the order constraint `x1 <= x2`. -/
def orderConstraintExample : ParameterConstraint :=
  { constraint_dict := [("x1", 1), ("x2", -1)], bound := 0 }

/-- Fixture: a single-objective on metric `foo`, minimized. -/
def fooObjective : Objective :=
  .single { metric := { name := "foo", lower_is_better := some true }, minimize := true }

/-- Fixture: a scalarized outcome constraint whose metrics include the
objective metric `foo`. -/
def fooScalarizedConstraint : AnyOutcomeConstraint :=
  .scalarized { metrics := [{ name := "foo" }], weights := [1], op := .LEQ, bound := 0 }

/-- Fixture: a plain outcome constraint on the objective metric `bar`. -/
def barConstraint : OutcomeConstraint :=
  { metric := { name := "bar" }, op := .GEQ, bound := 0 }

/-- Fixture: a single-objective on metric `bar`, minimized. -/
def barObjective : Objective :=
  .single { metric := { name := "bar", lower_is_better := some true }, minimize := true }

/-- Fixture: outcome constraints exercising the grouping rules — one metric
with a two-sided band (GEQ 1 below LEQ 2) and one metric with a single
constraint. -/
def groupingDemoConstraints : List OutcomeConstraint :=
  [ { metric := { name := "m" }, op := .GEQ, bound := 1 },
    { metric := { name := "a" }, op := .LEQ, bound := 0 },
    { metric := { name := "m" }, op := .LEQ, bound := 2 } ]

/-- Fixture: a two-metric multi-objective, minimizing `bar` and maximizing
`baz`. -/
def barBazObjectives : List SingleObjectiveData :=
  [ { metric := { name := "bar" }, minimize := true },
    { metric := { name := "baz" }, minimize := false } ]

/-- Fixture: thresholds aligned with `barBazObjectives` — `bar` bounded above
(minimized), `baz` bounded below (maximized). -/
def barBazThresholds : List ObjectiveThreshold :=
  [ { metric := { name := "bar" }, bound := 1, op := .LEQ },
    { metric := { name := "baz" }, bound := 0, op := .GEQ } ]

/-- Fixture: the parameter values x1 = 0.15, x2 = 1.5 of the order-constraint
scenario. -/
def orderCheckPassValues : List (String × ℚ) := [("x1", 15/100), ("x2", 3/2)]

/-- Fixture: the parameter values x1 = 1.9, x2 = 1.5 of the order-constraint
scenario. -/
def orderCheckFailValues : List (String × ℚ) := [("x1", 19/10), ("x2", 3/2)]

/-- Fixture: a single-objective on metric `qux`, minimized. -/
def quxObjective : Objective :=
  .single { metric := { name := "qux" }, minimize := true }

/-- Fixture: a plain outcome constraint on metric `qux`. -/
def quxConstraint : OutcomeConstraint :=
  { metric := { name := "qux" }, op := .LEQ, bound := 1 }

/-- Fixture: a plain outcome constraint on the objective metric `foo`. -/
def fooConstraint : OutcomeConstraint :=
  { metric := { name := "foo" }, op := .GEQ, bound := 0 }

/-- Fixture: a valid plain config — objective on `foo`, one constraint on
`bar`. -/
def plainDemoConfig : OptimizationConfigS :=
  { objective := fooObjective
    outcome_constraints := [.plain barConstraint]
    risk_measure := none }

/-- Fixture: a valid multi-objective config over `bar`/`baz` with no
constraints and no thresholds. -/
def mooDemoConfig : MultiObjectiveOptimizationConfigS :=
  { objective := .multi barBazObjectives
    outcome_constraints := []
    objective_thresholds := []
    risk_measure := none }

/-- Fixture: the multi-objective config over `bar`/`baz` carrying the aligned
thresholds. -/
def mooThresholdConfig : MultiObjectiveOptimizationConfigS :=
  { objective := .multi barBazObjectives
    outcome_constraints := []
    objective_thresholds := barBazThresholds
    risk_measure := none }

/-- Fixture: a misaligned threshold — `bar` is minimized but the threshold
bounds from below. -/
def misalignedBarThreshold : ObjectiveThreshold :=
  { metric := { name := "bar" }, bound := 0, op := .GEQ }

/-! ## Helper lemmas -/

theorem except_seq_ok_iff {ε β : Type} (a : Except ε Unit) (r c : β) :
    (a >>= fun _ => Except.ok r) = Except.ok c ↔ a = Except.ok () ∧ r = c := by
  cases a with
  | error e => simp [Bind.bind, Except.bind]
  | ok u => cases u; simp [Bind.bind, Except.bind]

theorem except_seq_unit_ok_iff {ε : Type} (a b : Except ε Unit) :
    (a >>= fun _ => b) = Except.ok () ↔ a = Except.ok () ∧ b = Except.ok () := by
  cases a with
  | error e => simp [Bind.bind, Except.bind]
  | ok u => cases u; simp [Bind.bind, Except.bind]

theorem map_parameter_clone (l : List Parameter) : l.map Parameter.clone = l := by
  induction l with
  | nil => rfl
  | cons a t ih => simp [Parameter.clone, ih]

theorem validate_outcome_constraints_nil (unconstrainable_metrics : List Metric) :
    validate_outcome_constraints unconstrainable_metrics [] = .ok () := by
  have h : (unconstrainable_metrics.any fun m => (List.map
      (fun c : OutcomeConstraint => c.metric.name) []).contains m.name) = false := by
    simp
  simp only [validate_outcome_constraints, h]
  rfl

theorem optimizationConfig_make_eq (objective : Objective)
    (ocs : Option (List AnyOutcomeConstraint)) (rm : Option String) :
    OptimizationConfig.make objective ocs rm =
      (OptimizationConfig.validateTransformed objective (ocs.getD []) rm >>= fun _ =>
        Except.ok { objective := objective
                    outcome_constraints := ocs.getD []
                    risk_measure := rm }) := rfl

/-! ## Claim theorems -/

/-- C9: generating `K` points in one uninterrupted call from a generator
freshly seeded with `S` equals generating `J` points and then `K - J` points
from a generator re-instantiated at the saved position with the same seed,
for all `0 ≤ J ≤ K`. -/
theorem sobol_gen_resumption (engine : Nat → Nat → ℚ) (S K J : Nat) (h : J ≤ K) :
    (SobolState.gen engine ⟨S, 0⟩ K).1 =
      (SobolState.gen engine ⟨S, 0⟩ J).1 ++
        (SobolState.gen engine (SobolState.gen engine ⟨S, 0⟩ J).2 (K - J)).1 := by
  simp only [SobolState.gen, Nat.zero_add]
  conv_lhs => rw [← Nat.add_sub_cancel' h]
  rw [List.range_add, List.map_append, List.map_map]
  rfl

/-- Witness for C9 at seed 7, K = 3, J = 1 with a concrete engine. -/
theorem sobol_gen_resumption_witness :
    (SobolState.gen (fun s i => mkRat s (i + 1)) ⟨7, 0⟩ 3).1 =
      (SobolState.gen (fun s i => mkRat s (i + 1)) ⟨7, 0⟩ 1).1 ++
        (SobolState.gen (fun s i => mkRat s (i + 1))
          (SobolState.gen (fun s i => mkRat s (i + 1)) ⟨7, 0⟩ 1).2 (3 - 1)).1 :=
  sobol_gen_resumption (fun s i => mkRat s (i + 1)) 7 3 1 (by decide)

/-- C7: cloning any constructed `SumConstraint` yields a `SumConstraint`
with an equal stored bound and an equal `is_upper_bound` flag. -/
theorem sum_constraint_clone_sign_round_trip (parameters : List Parameter)
    (is_upper_bound : Bool) (bound : ℚ) (c : SumConstraint)
    (h : SumConstraint.make parameters is_upper_bound bound = .ok c) :
    ∃ c2, SumConstraint.clone c = .ok c2 ∧ c2.bound = c.bound ∧
      c2.is_upper_bound = c.is_upper_bound := by
  have hv : validate_constraint_parameters parameters = .ok () := by
    cases hval : validate_constraint_parameters parameters with
    | ok u => cases u; rfl
    | error e =>
      rw [SumConstraint.make, hval] at h
      simp [Bind.bind, Except.bind] at h
  rw [SumConstraint.make, hv] at h
  simp only [Bind.bind, Except.bind, Except.ok.injEq] at h
  subst h
  refine ⟨{ parameters := parameters
            is_upper_bound := is_upper_bound
            bound := (if is_upper_bound then (1:ℚ) else -1) *
              ((if is_upper_bound then (1:ℚ) else -1) *
                ((if is_upper_bound then (1:ℚ) else -1) * bound))
            constraint_dict :=
              parameters.map (fun p => (p.name, if is_upper_bound then (1:ℚ) else -1)) },
    ?_, ?_, rfl⟩
  · rw [SumConstraint.clone, SumConstraint.make]
    show (validate_constraint_parameters (List.map Parameter.clone parameters) >>= _) = _
    rw [map_parameter_clone, hv]
    rfl
  · show (if is_upper_bound then (1:ℚ) else -1) *
        ((if is_upper_bound then (1:ℚ) else -1) *
          ((if is_upper_bound then (1:ℚ) else -1) * bound)) =
      (if is_upper_bound then (1:ℚ) else -1) * bound
    cases is_upper_bound <;> simp [neg_one_mul, neg_neg]

/-- Witness for C7: a lower-bound sum constraint over `x` with user bound 5. -/
theorem sum_constraint_clone_sign_round_trip_witness :
    ∃ c2, SumConstraint.clone lowerSumExample = .ok c2 ∧
      c2.bound = lowerSumExample.bound ∧
      c2.is_upper_bound = lowerSumExample.is_upper_bound :=
  sum_constraint_clone_sign_round_trip [xRangeParameter] false 5 lowerSumExample (by rfl)

/-- C8 counterexample: for the lower-bound sum constraint with user bound 5,
the public `bound` accessor returns the stored sign-multiplied value `-5`,
not the user-supplied `5`. -/
theorem sum_constraint_bound_accessor_cex :
    Except.map SumConstraint.bound lowerSumConstruction = .ok (-5 : ℚ) ∧
      ¬ ((-5 : ℚ) = 5) := by
  constructor
  · have h : Except.map SumConstraint.bound lowerSumConstruction =
        .ok ((-1 : ℚ) * 5) := rfl
    rw [h, neg_one_mul]
  · decide

/-- C8 (amended): a `SumConstraint` is stored in ≤ form through the sign
multiplier (+1 upper bound, -1 lower bound) applied to the weights and the
bound; `op` re-derives the user-facing direction from the stored sign, and
the user's original bound is re-derived as `_inequality_weight * _bound`
(as `clone` and `repr` do), while the `bound` accessor returns the stored
sign-multiplied value itself. -/
theorem sum_constraint_stored_sign_form (parameters : List Parameter)
    (is_upper_bound : Bool) (bound : ℚ) (c : SumConstraint)
    (h : SumConstraint.make parameters is_upper_bound bound = .ok c) :
    c.bound = (if is_upper_bound then (1:ℚ) else -1) * bound ∧
    c.constraint_dict =
      parameters.map (fun p => (p.name, if is_upper_bound then (1:ℚ) else -1)) ∧
    c.op = (if is_upper_bound then ComparisonOp.LEQ else ComparisonOp.GEQ) ∧
    c.inequality_weight * c.bound = bound := by
  have hv : validate_constraint_parameters parameters = .ok () := by
    cases hval : validate_constraint_parameters parameters with
    | ok u => cases u; rfl
    | error e =>
      rw [SumConstraint.make, hval] at h
      simp [Bind.bind, Except.bind] at h
  rw [SumConstraint.make, hv] at h
  simp only [Bind.bind, Except.bind, Except.ok.injEq] at h
  subst h
  refine ⟨rfl, rfl, ?_, ?_⟩
  · cases is_upper_bound <;> rfl
  · cases is_upper_bound <;>
      simp [SumConstraint.inequality_weight, neg_one_mul, neg_neg]

/-- Witness for C8 (amended) at the lower-bound constraint with user bound 5. -/
theorem sum_constraint_stored_sign_form_witness :
    lowerSumExample.bound = (if false then (1:ℚ) else -1) * 5 ∧
    lowerSumExample.constraint_dict =
      [xRangeParameter].map (fun p => (p.name, if false then (1:ℚ) else -1)) ∧
    lowerSumExample.op = (if false then ComparisonOp.LEQ else ComparisonOp.GEQ) ∧
    lowerSumExample.inequality_weight * lowerSumExample.bound = 5 :=
  sum_constraint_stored_sign_form [xRangeParameter] false 5 lowerSumExample (by rfl)

/-- C5: a plain `OptimizationConfig` rejects a `MultiObjective` objective with
an error directing to the multi-objective subtype and accepts a
`ScalarizedObjective`; a `MultiObjectiveOptimizationConfig` rejects an
objective that is neither `MultiObjective` nor `ScalarizedObjective` with a
type error. -/
theorem optimization_config_objective_type_guard :
    (∀ (objectives : List SingleObjectiveData)
        (ocs : Option (List AnyOutcomeConstraint)) (rm : Option String),
      OptimizationConfig.make (.multi objectives) ocs rm =
        .error "OptimizationConfig does not support MultiObjective. Use MultiObjectiveOptimizationConfig instead.") ∧
    (∀ (metrics : List Metric) (weights : List ℚ) (minimize : Bool) (rm : Option String),
      OptimizationConfig.make (.scalarized metrics weights minimize) none rm =
        .ok { objective := .scalarized metrics weights minimize
              outcome_constraints := []
              risk_measure := rm }) ∧
    (∀ (data : SingleObjectiveData) (ocs : Option (List OutcomeConstraint))
        (ths : Option (List ObjectiveThreshold)) (rm : Option String),
      MultiObjectiveOptimizationConfig.make (.single data) ocs ths rm =
        .error "`MultiObjectiveOptimizationConfig` requires an objective of type `MultiObjective` or `ScalarizedObjective`. Use `OptimizationConfig` instead if using a single-metric objective.") := by
  refine ⟨fun objectives ocs rm => rfl, fun metrics weights minimize rm => ?_, fun data ocs ths rm => rfl⟩
  have h1 : OptimizationConfig.validateTransformed (.scalarized metrics weights minimize)
      ((none : Option (List AnyOutcomeConstraint)).getD []) rm = .ok () :=
    validate_outcome_constraints_nil _
  rw [optimizationConfig_make_eq, h1]
  rfl

theorem plainConstraintsOf_filter_not_scalarized (ocs : List AnyOutcomeConstraint) :
    plainConstraintsOf (ocs.filter fun c => !c.isScalarized) = plainConstraintsOf ocs := by
  induction ocs with
  | nil => rfl
  | cons c rest ih =>
    cases c with
    | plain p =>
      simp only [plainConstraintsOf, List.filter_cons, AnyOutcomeConstraint.isScalarized,
        Bool.not_false, if_pos, List.filterMap_cons] at ih ⊢
      rw [ih]
    | scalarized s =>
      simp only [plainConstraintsOf, List.filter_cons, AnyOutcomeConstraint.isScalarized,
        Bool.not_true, List.filterMap_cons] at ih ⊢
      rw [if_neg (by simp)]
      exact ih

theorem plainConstraintsOf_all_scalarized (ocs : List AnyOutcomeConstraint)
    (h : ∀ c ∈ ocs, c.isScalarized = true) : plainConstraintsOf ocs = [] := by
  induction ocs with
  | nil => rfl
  | cons c rest ih =>
    cases c with
    | plain p =>
      have := h (.plain p) (List.mem_cons_self _ _)
      simp [AnyOutcomeConstraint.isScalarized] at this
    | scalarized s =>
      simp only [plainConstraintsOf, List.filterMap_cons]
      exact ih (fun c hc => h c (List.mem_cons_of_mem _ hc))

theorem optimizationConfig_validateTransformed_not_multi (objective : Objective)
    (ocs : List AnyOutcomeConstraint) (rm : Option String)
    (h : objective.isMulti = false) :
    OptimizationConfig.validateTransformed objective ocs rm =
      validate_outcome_constraints objective.get_unconstrainable_metrics
        (plainConstraintsOf ocs) := by
  cases objective with
  | multi objectives => simp [Objective.isMulti] at h
  | single data => rfl
  | scalarized metrics weights minimize => rfl

theorem validate_outcome_constraints_clash (ucs : List Metric)
    (pocs : List OutcomeConstraint)
    (h : ∃ m ∈ ucs, m.name ∈ pocs.map (fun c => c.metric.name)) :
    validate_outcome_constraints ucs pocs = .error "Cannot constrain on objective metric." := by
  obtain ⟨m, hm, hname⟩ := h
  have hcond : (ucs.any fun mm => (pocs.map fun c => c.metric.name).contains mm.name) = true := by
    rw [List.any_eq_true]
    exact ⟨m, hm, by simpa using hname⟩
  simp only [validate_outcome_constraints, hcond]
  rfl

theorem validateTransformed_objective_clash (objective : Objective)
    (ocs : List AnyOutcomeConstraint) (rm : Option String)
    (h1 : objective.isMulti = false)
    (h2 : ∃ p : OutcomeConstraint, .plain p ∈ ocs ∧
      p.metric.name ∈ objective.get_unconstrainable_metrics.map Metric.name) :
    OptimizationConfig.validateTransformed objective ocs rm =
      .error "Cannot constrain on objective metric." := by
  rw [optimizationConfig_validateTransformed_not_multi objective ocs rm h1]
  apply validate_outcome_constraints_clash
  obtain ⟨p, hmem, hname⟩ := h2
  obtain ⟨m, hm, heq⟩ := List.mem_map.mp hname
  refine ⟨m, hm, ?_⟩
  rw [heq]
  exact List.mem_map_of_mem _ (List.mem_filterMap.mpr ⟨.plain p, hmem, rfl⟩)

/-- C10: `OptimizationConfig` validation filters out every
`ScalarizedOutcomeConstraint` before the objective-metric check and the
per-metric grouping check, so a constraint list whose scalarized members
reference an objective metric or repeat a metric is accepted as if those
members were absent. -/
theorem scalarized_constraints_skipped :
    (∀ (objective : Objective) (ocs : List AnyOutcomeConstraint) (rm : Option String),
      OptimizationConfig.validateTransformed objective ocs rm =
        OptimizationConfig.validateTransformed objective
          (ocs.filter fun c => !c.isScalarized) rm) ∧
    (∀ (objective : Objective) (ocs : List AnyOutcomeConstraint) (rm : Option String),
      objective.isMulti = false → (∀ c ∈ ocs, c.isScalarized = true) →
      OptimizationConfig.make objective (some ocs) rm =
        .ok { objective := objective, outcome_constraints := ocs, risk_measure := rm }) := by
  constructor
  · intro objective ocs rm
    cases objective with
    | multi objectives => rfl
    | single data =>
      rw [optimizationConfig_validateTransformed_not_multi (.single data) ocs rm rfl,
        optimizationConfig_validateTransformed_not_multi (.single data)
          (ocs.filter fun c => !c.isScalarized) rm rfl,
        plainConstraintsOf_filter_not_scalarized]
    | scalarized metrics weights minimize =>
      rw [optimizationConfig_validateTransformed_not_multi
          (.scalarized metrics weights minimize) ocs rm rfl,
        optimizationConfig_validateTransformed_not_multi (.scalarized metrics weights minimize)
          (ocs.filter fun c => !c.isScalarized) rm rfl,
        plainConstraintsOf_filter_not_scalarized]
  · intro objective ocs rm h1 h2
    have hv : OptimizationConfig.validateTransformed objective
        ((some ocs).getD []) rm = .ok () := by
      rw [Option.getD_some, optimizationConfig_validateTransformed_not_multi _ _ _ h1,
        plainConstraintsOf_all_scalarized ocs h2]
      exact validate_outcome_constraints_nil _
    rw [optimizationConfig_make_eq, hv]
    rfl

/-- Witness for C10: two identical scalarized constraints on the objective
metric `foo` are accepted by the plain config constructor. -/
theorem scalarized_constraints_skipped_witness :
    OptimizationConfig.make fooObjective
      (some [fooScalarizedConstraint, fooScalarizedConstraint]) none =
      .ok { objective := fooObjective
            outcome_constraints := [fooScalarizedConstraint, fooScalarizedConstraint]
            risk_measure := none } :=
  scalarized_constraints_skipped.2 fooObjective
    [fooScalarizedConstraint, fooScalarizedConstraint] none (by decide) (by decide)

/-- C2 counterexample: with a `MultiObjective` objective whose metric `foo` is
also referenced by an outcome constraint, the plain `OptimizationConfig`
constructor raises the type-guard error, not an error naming the objective
metric. -/
theorem constrain_objective_metric_cex :
    OptimizationConfig.make (.multi [{ metric := { name := "foo" }, minimize := true }])
      (some [.plain { metric := { name := "foo" }, op := .GEQ, bound := 0 }]) none =
      .error "OptimizationConfig does not support MultiObjective. Use MultiObjectiveOptimizationConfig instead." ∧
    "OptimizationConfig does not support MultiObjective. Use MultiObjectiveOptimizationConfig instead." ≠
      "Cannot constrain on objective metric." :=
  ⟨rfl, by decide⟩

/-- C2 (amended): for every objective accepted by the plain config's type
guard (that is, not a `MultiObjective`), the constructor, the `objective`
setter and the `outcome_constraints` setter raise the error "Cannot constrain
on objective metric." whenever some non-scalarized outcome constraint's
metric name (among the constraints being supplied, or, for the `objective`
setter, among the stored constraints) equals the name of a metric referenced
by the objective; in particular a single-objective config on `foo` with an
outcome constraint on `foo` is always rejected with that error. -/
theorem constrain_objective_metric_rejected :
    (∀ (objective : Objective) (ocs : List AnyOutcomeConstraint) (rm : Option String),
      objective.isMulti = false →
      (∃ p : OutcomeConstraint, .plain p ∈ ocs ∧
        p.metric.name ∈ objective.get_unconstrainable_metrics.map Metric.name) →
      OptimizationConfig.make objective (some ocs) rm =
        .error "Cannot constrain on objective metric.") ∧
    (∀ (cfg : OptimizationConfigS) (objective : Objective),
      objective.isMulti = false →
      (∃ p : OutcomeConstraint, .plain p ∈ cfg.outcome_constraints ∧
        p.metric.name ∈ objective.get_unconstrainable_metrics.map Metric.name) →
      OptimizationConfig.setObjective cfg objective =
        .error "Cannot constrain on objective metric.") ∧
    (∀ (cfg : OptimizationConfigS) (ocs : List AnyOutcomeConstraint),
      cfg.objective.isMulti = false →
      (∃ p : OutcomeConstraint, .plain p ∈ ocs ∧
        p.metric.name ∈ cfg.objective.get_unconstrainable_metrics.map Metric.name) →
      OptimizationConfig.setOutcomeConstraints cfg ocs =
        .error "Cannot constrain on objective metric.") ∧
    (∀ (bound : ℚ) (relative : Bool) (rm : Option String),
      OptimizationConfig.make fooObjective
        (some [.plain { metric := { name := "foo" }, op := .LEQ, bound := bound
                        relative := relative }]) rm =
        .error "Cannot constrain on objective metric.") := by
  refine ⟨?_, ?_, ?_, ?_⟩
  · intro objective ocs rm h1 h2
    rw [optimizationConfig_make_eq, Option.getD_some,
      validateTransformed_objective_clash objective ocs rm h1 h2]
    rfl
  · intro cfg objective h1 h2
    rw [OptimizationConfig.setObjective,
      validateTransformed_objective_clash objective cfg.outcome_constraints
        cfg.risk_measure h1 h2]
    rfl
  · intro cfg ocs h1 h2
    rw [OptimizationConfig.setOutcomeConstraints,
      validateTransformed_objective_clash cfg.objective ocs cfg.risk_measure h1 h2]
    rfl
  · intro bound relative rm
    rw [optimizationConfig_make_eq, Option.getD_some,
      validateTransformed_objective_clash _ _ _ (by decide)
        ⟨{ metric := { name := "foo" }, op := .LEQ, bound := bound, relative := relative },
          by simp,
          by simp [fooObjective, Objective.get_unconstrainable_metrics, Objective.metrics]⟩]
    rfl

/-- Witness for C2 (amended): the four conjuncts applied at a single
objective on `bar` with a plain constraint on `bar` (supplied to the
constructor and the `outcome_constraints` setter, and stored when the
`objective` setter is pointed at `bar`), and at the `foo` scenario with
bound 0. -/
theorem constrain_objective_metric_rejected_witness :
    OptimizationConfig.make barObjective (some [.plain barConstraint]) none =
      .error "Cannot constrain on objective metric." ∧
    OptimizationConfig.setObjective
      { objective := quxObjective, outcome_constraints := [.plain barConstraint]
        risk_measure := none } barObjective =
      .error "Cannot constrain on objective metric." ∧
    OptimizationConfig.setOutcomeConstraints
      { objective := barObjective, outcome_constraints := [], risk_measure := none }
      [.plain barConstraint] = .error "Cannot constrain on objective metric." ∧
    OptimizationConfig.make fooObjective
      (some [.plain { metric := { name := "foo" }, op := .LEQ, bound := 0
                      relative := true }]) none =
      .error "Cannot constrain on objective metric." :=
  ⟨constrain_objective_metric_rejected.1 barObjective [.plain barConstraint] none
      (by decide) ⟨barConstraint, by decide, by decide⟩,
    constrain_objective_metric_rejected.2.1
      { objective := quxObjective, outcome_constraints := [.plain barConstraint]
        risk_measure := none } barObjective
      (by decide) ⟨barConstraint, by decide, by decide⟩,
    constrain_objective_metric_rejected.2.2.1
      { objective := barObjective, outcome_constraints := [], risk_measure := none }
      [.plain barConstraint] (by decide) ⟨barConstraint, by decide, by decide⟩,
    constrain_objective_metric_rejected.2.2.2 0 true none⟩

theorem checkAllConstraintGroups_ok_iff (gs : List (String × List OutcomeConstraint)) :
    checkAllConstraintGroups gs = .ok () ↔
      ∀ g ∈ gs, checkConstraintGroup g.1 g.2 = .ok () := by
  induction gs with
  | nil => simp [checkAllConstraintGroups]
  | cons g rest ih =>
    cases g with
    | mk metric_name constraints =>
      rw [checkAllConstraintGroups, except_seq_unit_ok_iff, ih]
      simp

theorem checkConstraintGroup_ok_iff (metric_name : String) (g : List OutcomeConstraint) :
    checkConstraintGroup metric_name g = .ok () ↔ groupAcceptedSpec g = true := by
  match g with
  | [] => simp [checkConstraintGroup, groupAcceptedSpec]
  | [c] => simp [checkConstraintGroup, groupAcceptedSpec]
  | [c0, c1] =>
    rw [checkConstraintGroup, groupAcceptedSpec]
    by_cases hop : c0.op = c1.op
    · simp [hop]
    · rw [if_neg hop]
      by_cases hb : (if c0.op = ComparisonOp.GEQ then c0.bound else c1.bound) ≥
          (if c0.op = ComparisonOp.GEQ then c1.bound else c0.bound)
      · simp [hb, hop, not_lt.mpr hb]
      · simp [hb, hop, not_le.mp hb]
  | c0 :: c1 :: c2 :: rest =>
    have h1 : checkConstraintGroup metric_name (c0 :: c1 :: c2 :: rest) =
        .error ("Duplicate outcome constraints " ++ metric_name) := rfl
    have h2 : groupAcceptedSpec (c0 :: c1 :: c2 :: rest) = false := rfl
    rw [h1, h2]
    simp

/-- C1: with no outcome constraint on an unconstrainable metric (so the
objective-metric check passes), `_validate_outcome_constraints` succeeds if
and only if every metric-name group it forms is acceptable: one constraint is
always accepted, two constraints are accepted exactly when their operators
differ and the GEQ bound is strictly below the LEQ bound, and more than two
constraints are always rejected. -/
theorem outcome_constraint_grouping (unconstrainable_metrics : List Metric)
    (outcome_constraints : List OutcomeConstraint)
    (h : ∀ c ∈ outcome_constraints, ∀ m ∈ unconstrainable_metrics,
      c.metric.name ≠ m.name) :
    validate_outcome_constraints unconstrainable_metrics outcome_constraints = .ok () ↔
      ∀ g ∈ constraintGroups outcome_constraints, groupAcceptedSpec g.2 = true := by
  have hcond : (unconstrainable_metrics.any fun m =>
      (outcome_constraints.map fun c => c.metric.name).contains m.name) = false := by
    rw [List.any_eq_false]
    intro m hm hcontains
    obtain ⟨c, hc, hceq⟩ := List.mem_map.mp (by simpa using hcontains)
    exact h c hc m hm hceq
  simp only [validate_outcome_constraints, hcond]
  rw [if_neg (by simp), checkAllConstraintGroups_ok_iff]
  constructor
  · intro hall g hg
    exact (checkConstraintGroup_ok_iff g.1 g.2).mp (hall g hg)
  · intro hall g hg
    exact (checkConstraintGroup_ok_iff g.1 g.2).mpr (hall g hg)

/-- Witness for C1: a two-sided band on metric `m` (GEQ 1, LEQ 2) together
with a single constraint on metric `a` passes validation. -/
theorem outcome_constraint_grouping_witness :
    validate_outcome_constraints [] groupingDemoConstraints = .ok () :=
  (outcome_constraint_grouping [] groupingDemoConstraints (by decide)).mpr (by decide)

/-- The acceptance condition of the objective-threshold check, following the
claim's wording: every threshold's metric must resolve to one of the
objective's entries (last entry winning on a repeated name, as a Python dict
does), no metric may carry two thresholds, and the threshold bounds from
above (`LEQ`) exactly when the resolved objective is minimized. -/
theorem checkThresholdsLoop_ok_iff (obn : List (String × SingleObjectiveData))
    (seen : List String) (ths : List ObjectiveThreshold) :
    checkThresholdsLoop obn seen ths = .ok () ↔
      ((∀ t ∈ ths, ((List.lookup t.metric.name obn).any
          (fun o => o.minimize == (t.op == ComparisonOp.LEQ))) = true) ∧
        (ths.map (fun t => t.metric.name)).Nodup ∧
        (∀ t ∈ ths, t.metric.name ∉ seen)) := by
  induction ths generalizing seen with
  | nil => simp [checkThresholdsLoop]
  | cons t rest ih =>
    rw [checkThresholdsLoop]
    split
    · rename_i hl
      simp [hl]
    · rename_i o hl
      by_cases hseen : t.metric.name ∈ seen
      · rw [if_pos hseen]
        simp [hseen]
      · by_cases halign : o.minimize = (t.op == ComparisonOp.LEQ)
        · rw [if_neg hseen, if_pos halign, ih (t.metric.name :: seen)]
          constructor
          · rintro ⟨ha, hnd, hns⟩
            refine ⟨?_, ?_, ?_⟩
            · intro t' ht'
              rcases List.mem_cons.mp ht' with rfl | ht2
              · rw [hl]
                simp [halign]
              · exact ha t' ht2
            · rw [List.map_cons, List.nodup_cons]
              refine ⟨?_, hnd⟩
              intro hmem
              obtain ⟨t', ht', heq⟩ := List.mem_map.mp hmem
              exact (hns t' ht') (heq ▸ List.mem_cons_self _ _)
            · intro t' ht'
              rcases List.mem_cons.mp ht' with rfl | ht2
              · exact hseen
              · intro hmem
                exact (hns t' ht2) (List.mem_cons_of_mem _ hmem)
          · rintro ⟨ha, hnd, hns⟩
            rw [List.map_cons, List.nodup_cons] at hnd
            refine ⟨fun t' ht' => ha t' (List.mem_cons_of_mem _ ht'), hnd.2, ?_⟩
            intro t' ht' hmem
            rcases List.mem_cons.mp hmem with heq | hmem2
            · exact hnd.1 (heq ▸ List.mem_map_of_mem _ ht')
            · exact (hns t' (List.mem_cons_of_mem _ ht')) hmem2
        · rw [if_neg hseen, if_neg halign]
          simp [hl, halign]

/-- C3: for a `MultiObjective` objective, a list of objective thresholds is
accepted by `check_objective_thresholds_match_objectives` — and hence by the
`objective_thresholds` setter and by construction with those thresholds — if
and only if every threshold's metric resolves to one of the objective's
metrics, no metric has more than one threshold, and each threshold bounds
from above (`LEQ`) exactly when the corresponding objective is minimized. -/
theorem objective_thresholds_validation (objectives : List SingleObjectiveData)
    (ths : List ObjectiveThreshold) :
    (check_objective_thresholds_match_objectives (objectivesByName objectives) ths = .ok () ↔
      ((∀ t ∈ ths, (List.lookup t.metric.name (objectivesByName objectives)).isSome = true) ∧
        (ths.map (fun t => t.metric.name)).Nodup ∧
        (∀ t ∈ ths, ((List.lookup t.metric.name (objectivesByName objectives)).any
          (fun o => o.minimize == (t.op == ComparisonOp.LEQ))) = true))) ∧
    (∀ cfg : MultiObjectiveOptimizationConfigS, cfg.objective = .multi objectives →
      ((∃ cfg2, MultiObjectiveOptimizationConfig.setObjectiveThresholds cfg ths = .ok cfg2) ↔
        check_objective_thresholds_match_objectives (objectivesByName objectives) ths
          = .ok ())) ∧
    ((∃ cfg, MultiObjectiveOptimizationConfig.make (.multi objectives) none (some ths) none
        = .ok cfg) ↔
      check_objective_thresholds_match_objectives (objectivesByName objectives) ths
        = .ok ()) := by
  have hcore : check_objective_thresholds_match_objectives (objectivesByName objectives) ths
      = .ok () ↔
        ((∀ t ∈ ths, ((List.lookup t.metric.name (objectivesByName objectives)).any
          (fun o => o.minimize == (t.op == ComparisonOp.LEQ))) = true) ∧
          (ths.map (fun t => t.metric.name)).Nodup) := by
    rw [check_objective_thresholds_match_objectives,
      checkThresholdsLoop_ok_iff (objectivesByName objectives) [] ths]
    simp
  have hmoo : ∀ rm : Option String,
      MultiObjectiveOptimizationConfig.validateTransformed (.multi objectives) [] ths rm
        = (check_objective_thresholds_match_objectives (objectivesByName objectives) ths
            >>= fun _ => validate_outcome_constraints
              (Objective.get_unconstrainable_metrics (.multi objectives)) []) := by
    intro rm
    rfl
  refine ⟨?_, ?_, ?_⟩
  · rw [hcore]
    constructor
    · rintro ⟨ha, hnd⟩
      refine ⟨fun t ht => ?_, hnd, ha⟩
      have h1 := ha t ht
      cases hx : List.lookup t.metric.name (objectivesByName objectives) with
      | none => rw [hx] at h1; simp [Option.any] at h1
      | some o => simp [hx]
    · rintro ⟨_, hnd, ha⟩
      exact ⟨ha, hnd⟩
  · intro cfg hobj
    rw [MultiObjectiveOptimizationConfig.setObjectiveThresholds, hobj, hmoo cfg.risk_measure]
    cases hch : check_objective_thresholds_match_objectives (objectivesByName objectives) ths with
    | error e => simp [Bind.bind, Except.bind]
    | ok u =>
      cases u
      simp [Bind.bind, Except.bind, validate_outcome_constraints_nil]
  · rw [show MultiObjectiveOptimizationConfig.make (.multi objectives) none (some ths) none
        = (MultiObjectiveOptimizationConfig.validateTransformed (.multi objectives) [] ths none
            >>= fun _ => Except.ok
              { objective := .multi objectives
                outcome_constraints := []
                objective_thresholds := ths
                risk_measure := none }) from rfl,
      hmoo none]
    cases hch : check_objective_thresholds_match_objectives (objectivesByName objectives) ths with
    | error e => simp [Bind.bind, Except.bind]
    | ok u =>
      cases u
      simp [Bind.bind, Except.bind, validate_outcome_constraints_nil]

/-- Witness for C3: aligned thresholds on `bar` (minimize, LEQ) and `baz`
(maximize, GEQ) are accepted by the check, the setter and the constructor. -/
theorem objective_thresholds_validation_witness :
    check_objective_thresholds_match_objectives (objectivesByName barBazObjectives)
      barBazThresholds = .ok () ∧
    (∃ cfg2, MultiObjectiveOptimizationConfig.setObjectiveThresholds
      { objective := .multi barBazObjectives
        outcome_constraints := []
        objective_thresholds := []
        risk_measure := none } barBazThresholds = .ok cfg2) ∧
    (∃ cfg, MultiObjectiveOptimizationConfig.make (.multi barBazObjectives) none
      (some barBazThresholds) none = .ok cfg) := by
  have hcheck : check_objective_thresholds_match_objectives
      (objectivesByName barBazObjectives) barBazThresholds = .ok () :=
    (objective_thresholds_validation barBazObjectives barBazThresholds).1.mpr (by decide)
  exact ⟨hcheck,
    ((objective_thresholds_validation barBazObjectives barBazThresholds).2.1 _ rfl).mpr hcheck,
    (objective_thresholds_validation barBazObjectives barBazThresholds).2.2.mpr hcheck⟩

/-- C6: `ParameterConstraint.check` returns `true` exactly when the weighted
sum of the supplied values is at most `bound + 1e-8` (and `false` exactly
otherwise), provided every referenced parameter name is present, and raises a
`ValueError` whenever some referenced parameter name is missing from the
supplied values. -/
theorem parameter_constraint_check_contract (c : ParameterConstraint)
    (pd : List (String × ℚ)) :
    ((∀ kv ∈ c.constraint_dict, (List.lookup kv.1 pd).isSome = true) →
      (c.check pd = .ok true ↔ weightedSum c pd ≤ c.bound + 1 / 100000000) ∧
      (c.check pd = .ok false ↔ ¬ weightedSum c pd ≤ c.bound + 1 / 100000000)) ∧
    ((∃ kv ∈ c.constraint_dict, List.lookup kv.1 pd = none) →
      ∃ msg, c.check pd = .error msg) := by
  constructor
  · intro hall
    have hfind : c.constraint_dict.find? (fun kv => (List.lookup kv.1 pd).isNone) = none := by
      rw [List.find?_eq_none]
      intro kv hkv
      cases hx : List.lookup kv.1 pd with
      | none =>
        have := hall kv hkv
        rw [hx] at this
        simp at this
      | some v => simp
    rw [ParameterConstraint.check]
    split
    · rename_i kv heq
      rw [hfind] at heq
      cases heq
    · constructor
      · simp [weightedSum, decide_eq_true_iff]
      · simp [weightedSum, decide_eq_false_iff_not]
  · rintro ⟨kv, hkv, hnone⟩
    rw [ParameterConstraint.check]
    split
    · rename_i kv2 heq
      exact ⟨_, rfl⟩
    · rename_i heq
      have := List.find?_eq_none.mp heq kv hkv
      rw [hnone] at this
      simp at this

/-- Witness for C6: the order constraint `x1 <= x2` built from its parameters
accepts x1 = 0.15, x2 = 1.5 and rejects x1 = 1.9, x2 = 1.5. -/
theorem parameter_constraint_check_contract_witness :
    OrderConstraint.make x1Parameter x2Parameter = .ok orderConstraintExample ∧
    orderConstraintExample.check orderCheckPassValues = .ok true ∧
    orderConstraintExample.check orderCheckFailValues = .ok false := by
  refine ⟨rfl, ?_, ?_⟩
  · refine ((parameter_constraint_check_contract orderConstraintExample
      orderCheckPassValues).1 (by decide)).1.mpr ?_
    have h1 : List.lookup "x1" orderCheckPassValues = some (15/100 : ℚ) := rfl
    have h2 : List.lookup "x2" orderCheckPassValues = some (3/2 : ℚ) := rfl
    simp [weightedSum, orderConstraintExample, h1, h2]
    norm_num
  · refine ((parameter_constraint_check_contract orderConstraintExample
      orderCheckFailValues).1 (by decide)).2.mpr ?_
    have h1 : List.lookup "x1" orderCheckFailValues = some (19/10 : ℚ) := rfl
    have h2 : List.lookup "x2" orderCheckFailValues = some (3/2 : ℚ) := rfl
    simp [weightedSum, orderConstraintExample, h1, h2]
    norm_num

theorem mooConfig_make_eq (objective : Objective) (ocs : Option (List OutcomeConstraint))
    (ths : Option (List ObjectiveThreshold)) (rm : Option String) :
    MultiObjectiveOptimizationConfig.make objective ocs ths rm =
      (MultiObjectiveOptimizationConfig.validateTransformed objective (ocs.getD [])
          (ths.getD []) rm >>= fun _ =>
        Except.ok { objective := objective
                    outcome_constraints := ocs.getD []
                    objective_thresholds := ths.getD []
                    risk_measure := rm }) := rfl

theorem moo_validate_multi_ok_iff (objectives : List SingleObjectiveData)
    (ocs : List OutcomeConstraint) (ths : List ObjectiveThreshold) (rm : Option String) :
    MultiObjectiveOptimizationConfig.validateTransformed (.multi objectives) ocs ths rm
        = .ok () ↔
      (check_objective_thresholds_match_objectives (objectivesByName objectives) ths
          = .ok () ∧
        validate_outcome_constraints
          (Objective.get_unconstrainable_metrics (.multi objectives)) ocs = .ok ()) := by
  rw [show MultiObjectiveOptimizationConfig.validateTransformed (.multi objectives) ocs ths rm
      = (check_objective_thresholds_match_objectives (objectivesByName objectives) ths
          >>= fun _ => validate_outcome_constraints
            (Objective.get_unconstrainable_metrics (.multi objectives)) ocs) from rfl]
  exact except_seq_unit_ok_iff _ _

theorem moo_validate_scalarized_eq (metrics : List Metric) (weights : List ℚ)
    (minimize : Bool) (ocs : List OutcomeConstraint) (ths : List ObjectiveThreshold)
    (rm : Option String) :
    MultiObjectiveOptimizationConfig.validateTransformed (.scalarized metrics weights minimize)
        ocs ths rm =
      validate_outcome_constraints
        (Objective.get_unconstrainable_metrics (.scalarized metrics weights minimize)) ocs := rfl

theorem moo_validate_single_eq (data : SingleObjectiveData)
    (ocs : List OutcomeConstraint) (ths : List ObjectiveThreshold) (rm : Option String) :
    MultiObjectiveOptimizationConfig.validateTransformed (.single data) ocs ths rm =
      .error "`MultiObjectiveOptimizationConfig` requires an objective of type `MultiObjective` or `ScalarizedObjective`. Use `OptimizationConfig` instead if using a single-metric objective." := rfl

theorem check_objective_thresholds_nil (obn : List (String × SingleObjectiveData)) :
    check_objective_thresholds_match_objectives obn [] = .ok () := rfl

/-- C4: every constructor and setter of the two config classes validates the
full new state before storing it, and each operation is atomic — on success
exactly the targeted field changes and the stored state satisfies the
constructor's validation; on an error the previous state is kept (the
`trySet` wrappers give the Python call semantics of a raising setter). -/
theorem config_revalidation_atomic :
    (∀ (objective : Objective) (ocs : Option (List AnyOutcomeConstraint))
        (rm : Option String) (cfg : OptimizationConfigS),
      OptimizationConfig.make objective ocs rm = .ok cfg →
      cfg = { objective := objective, outcome_constraints := ocs.getD []
              risk_measure := rm } ∧ cfg.Valid) ∧
    (∀ (cfg : OptimizationConfigS) (objective : Objective),
      (∀ cfg2, OptimizationConfig.setObjective cfg objective = .ok cfg2 →
        cfg2 = { cfg with objective := objective } ∧ cfg2.Valid) ∧
      (∀ e, OptimizationConfig.setObjective cfg objective = .error e →
        OptimizationConfig.trySetObjective cfg objective = cfg)) ∧
    (∀ (cfg : OptimizationConfigS) (ocs : List AnyOutcomeConstraint),
      (∀ cfg2, OptimizationConfig.setOutcomeConstraints cfg ocs = .ok cfg2 →
        cfg2 = { cfg with outcome_constraints := ocs } ∧ cfg2.Valid) ∧
      (∀ e, OptimizationConfig.setOutcomeConstraints cfg ocs = .error e →
        OptimizationConfig.trySetOutcomeConstraints cfg ocs = cfg)) ∧
    (∀ (objective : Objective) (ocs : Option (List OutcomeConstraint))
        (ths : Option (List ObjectiveThreshold)) (rm : Option String)
        (cfg : MultiObjectiveOptimizationConfigS),
      MultiObjectiveOptimizationConfig.make objective ocs ths rm = .ok cfg →
      cfg = { objective := objective, outcome_constraints := ocs.getD []
              objective_thresholds := ths.getD [], risk_measure := rm } ∧ cfg.Valid) ∧
    (∀ (cfg : MultiObjectiveOptimizationConfigS) (objective : Objective),
      (∀ cfg2, MultiObjectiveOptimizationConfig.setObjective cfg objective = .ok cfg2 →
        cfg2 = { cfg with objective := objective } ∧ cfg2.Valid) ∧
      (∀ e, MultiObjectiveOptimizationConfig.setObjective cfg objective = .error e →
        MultiObjectiveOptimizationConfig.trySetObjective cfg objective = cfg)) ∧
    (∀ (cfg : MultiObjectiveOptimizationConfigS) (ocs : List OutcomeConstraint),
      (cfg.Valid → ∀ cfg2,
        MultiObjectiveOptimizationConfig.setOutcomeConstraints cfg ocs = .ok cfg2 →
        cfg2 = { cfg with outcome_constraints := ocs } ∧ cfg2.Valid) ∧
      (∀ e, MultiObjectiveOptimizationConfig.setOutcomeConstraints cfg ocs = .error e →
        MultiObjectiveOptimizationConfig.trySetOutcomeConstraints cfg ocs = cfg)) ∧
    (∀ (cfg : MultiObjectiveOptimizationConfigS) (ths : List ObjectiveThreshold),
      (cfg.Valid → ∀ cfg2,
        MultiObjectiveOptimizationConfig.setObjectiveThresholds cfg ths = .ok cfg2 →
        cfg2 = { cfg with objective_thresholds := ths } ∧ cfg2.Valid) ∧
      (∀ e, MultiObjectiveOptimizationConfig.setObjectiveThresholds cfg ths = .error e →
        MultiObjectiveOptimizationConfig.trySetObjectiveThresholds cfg ths = cfg)) := by
  refine ⟨?_, ?_, ?_, ?_, ?_, ?_, ?_⟩
  · intro objective ocs rm cfg h
    rw [optimizationConfig_make_eq] at h
    obtain ⟨hv, hr⟩ := (except_seq_ok_iff _ _ _).mp h
    subst hr
    exact ⟨rfl, hv⟩
  · intro cfg objective
    constructor
    · intro cfg2 h
      rw [show OptimizationConfig.setObjective cfg objective =
          (OptimizationConfig.validateTransformed objective cfg.outcome_constraints
              cfg.risk_measure >>= fun _ =>
            Except.ok { cfg with objective := objective }) from rfl] at h
      obtain ⟨hv, hr⟩ := (except_seq_ok_iff _ _ _).mp h
      subst hr
      exact ⟨rfl, hv⟩
    · intro e h
      simp [OptimizationConfig.trySetObjective, h]
  · intro cfg ocs
    constructor
    · intro cfg2 h
      rw [show OptimizationConfig.setOutcomeConstraints cfg ocs =
          (OptimizationConfig.validateTransformed cfg.objective ocs
              cfg.risk_measure >>= fun _ =>
            Except.ok { cfg with outcome_constraints := ocs }) from rfl] at h
      obtain ⟨hv, hr⟩ := (except_seq_ok_iff _ _ _).mp h
      subst hr
      exact ⟨rfl, hv⟩
    · intro e h
      simp [OptimizationConfig.trySetOutcomeConstraints, h]
  · intro objective ocs ths rm cfg h
    rw [mooConfig_make_eq] at h
    obtain ⟨hv, hr⟩ := (except_seq_ok_iff _ _ _).mp h
    subst hr
    exact ⟨rfl, hv⟩
  · intro cfg objective
    constructor
    · intro cfg2 h
      rw [show MultiObjectiveOptimizationConfig.setObjective cfg objective =
          (MultiObjectiveOptimizationConfig.validateTransformed objective
              cfg.outcome_constraints cfg.objective_thresholds cfg.risk_measure
              >>= fun _ =>
            Except.ok { cfg with objective := objective }) from rfl] at h
      obtain ⟨hv, hr⟩ := (except_seq_ok_iff _ _ _).mp h
      subst hr
      exact ⟨rfl, hv⟩
    · intro e h
      simp [MultiObjectiveOptimizationConfig.trySetObjective, h]
  · intro cfg ocs
    constructor
    · intro hvalid cfg2 h
      rw [show MultiObjectiveOptimizationConfig.setOutcomeConstraints cfg ocs =
          (MultiObjectiveOptimizationConfig.validateTransformed cfg.objective
              ocs [] cfg.risk_measure >>= fun _ =>
            Except.ok { cfg with outcome_constraints := ocs }) from rfl] at h
      obtain ⟨hv, hr⟩ := (except_seq_ok_iff _ _ _).mp h
      subst hr
      refine ⟨rfl, ?_⟩
      show MultiObjectiveOptimizationConfig.validateTransformed cfg.objective ocs
        cfg.objective_thresholds cfg.risk_measure = .ok ()
      cases hobj : cfg.objective with
      | single data =>
        rw [MultiObjectiveOptimizationConfigS.Valid, hobj, moo_validate_single_eq] at hvalid
        cases hvalid
      | multi objectives =>
        rw [hobj, moo_validate_multi_ok_iff] at hv
        rw [moo_validate_multi_ok_iff]
        rw [MultiObjectiveOptimizationConfigS.Valid, hobj, moo_validate_multi_ok_iff] at hvalid
        exact ⟨hvalid.1, hv.2⟩
      | scalarized metrics weights minimize =>
        rw [hobj, moo_validate_scalarized_eq] at hv
        rw [moo_validate_scalarized_eq]
        exact hv
    · intro e h
      simp [MultiObjectiveOptimizationConfig.trySetOutcomeConstraints, h]
  · intro cfg ths
    constructor
    · intro hvalid cfg2 h
      rw [show MultiObjectiveOptimizationConfig.setObjectiveThresholds cfg ths =
          (MultiObjectiveOptimizationConfig.validateTransformed cfg.objective
              [] ths cfg.risk_measure >>= fun _ =>
            Except.ok { cfg with objective_thresholds := ths }) from rfl] at h
      obtain ⟨hv, hr⟩ := (except_seq_ok_iff _ _ _).mp h
      subst hr
      refine ⟨rfl, ?_⟩
      show MultiObjectiveOptimizationConfig.validateTransformed cfg.objective
        cfg.outcome_constraints ths cfg.risk_measure = .ok ()
      cases hobj : cfg.objective with
      | single data =>
        rw [MultiObjectiveOptimizationConfigS.Valid, hobj, moo_validate_single_eq] at hvalid
        cases hvalid
      | multi objectives =>
        rw [hobj, moo_validate_multi_ok_iff] at hv
        rw [moo_validate_multi_ok_iff]
        rw [MultiObjectiveOptimizationConfigS.Valid, hobj, moo_validate_multi_ok_iff] at hvalid
        exact ⟨hv.1, hvalid.2⟩
      | scalarized metrics weights minimize =>
        rw [hobj, moo_validate_scalarized_eq] at hv
        rw [moo_validate_scalarized_eq]
        rw [MultiObjectiveOptimizationConfigS.Valid, hobj, moo_validate_scalarized_eq] at hvalid
        exact hvalid
    · intro e h
      simp [MultiObjectiveOptimizationConfig.trySetObjectiveThresholds, h]

/-- Witness for C4: all seven entry points applied at concrete configs, in
both their accepting and their rejecting modes. -/
theorem config_revalidation_atomic_witness :
    (plainDemoConfig = { objective := fooObjective
                         outcome_constraints := [.plain barConstraint]
                         risk_measure := none } ∧ plainDemoConfig.Valid) ∧
    (({ objective := quxObjective
        outcome_constraints := [.plain barConstraint]
        risk_measure := none } : OptimizationConfigS) =
        { plainDemoConfig with objective := quxObjective } ∧
      ({ objective := quxObjective
         outcome_constraints := [.plain barConstraint]
         risk_measure := none } : OptimizationConfigS).Valid) ∧
    OptimizationConfig.trySetObjective plainDemoConfig (.multi []) = plainDemoConfig ∧
    (({ objective := fooObjective
        outcome_constraints := [.plain quxConstraint]
        risk_measure := none } : OptimizationConfigS) =
        { plainDemoConfig with outcome_constraints := [.plain quxConstraint] } ∧
      ({ objective := fooObjective
         outcome_constraints := [.plain quxConstraint]
         risk_measure := none } : OptimizationConfigS).Valid) ∧
    OptimizationConfig.trySetOutcomeConstraints plainDemoConfig [.plain fooConstraint] =
      plainDemoConfig ∧
    (mooThresholdConfig = { objective := .multi barBazObjectives
                            outcome_constraints := []
                            objective_thresholds := barBazThresholds
                            risk_measure := none } ∧ mooThresholdConfig.Valid) ∧
    (({ mooDemoConfig with objective := .scalarized [{ name := "s" }] [1] true } :
        MultiObjectiveOptimizationConfigS) =
        { mooDemoConfig with objective := .scalarized [{ name := "s" }] [1] true } ∧
      ({ mooDemoConfig with objective := .scalarized [{ name := "s" }] [1] true } :
        MultiObjectiveOptimizationConfigS).Valid) ∧
    MultiObjectiveOptimizationConfig.trySetObjective mooDemoConfig
      (.single { metric := { name := "q" }, minimize := true }) = mooDemoConfig ∧
    (({ mooDemoConfig with outcome_constraints := [quxConstraint] } :
        MultiObjectiveOptimizationConfigS) =
        { mooDemoConfig with outcome_constraints := [quxConstraint] } ∧
      ({ mooDemoConfig with outcome_constraints := [quxConstraint] } :
        MultiObjectiveOptimizationConfigS).Valid) ∧
    MultiObjectiveOptimizationConfig.trySetOutcomeConstraints mooDemoConfig
      [barConstraint] = mooDemoConfig ∧
    (({ mooDemoConfig with objective_thresholds := barBazThresholds } :
        MultiObjectiveOptimizationConfigS) =
        { mooDemoConfig with objective_thresholds := barBazThresholds } ∧
      ({ mooDemoConfig with objective_thresholds := barBazThresholds } :
        MultiObjectiveOptimizationConfigS).Valid) ∧
    MultiObjectiveOptimizationConfig.trySetObjectiveThresholds mooDemoConfig
      [misalignedBarThreshold] = mooDemoConfig :=
  ⟨config_revalidation_atomic.1 fooObjective (some [.plain barConstraint]) none
      plainDemoConfig rfl,
    (config_revalidation_atomic.2.1 plainDemoConfig quxObjective).1 _ rfl,
    (config_revalidation_atomic.2.1 plainDemoConfig (.multi [])).2 _ rfl,
    (config_revalidation_atomic.2.2.1 plainDemoConfig [.plain quxConstraint]).1 _ rfl,
    (config_revalidation_atomic.2.2.1 plainDemoConfig [.plain fooConstraint]).2 _ rfl,
    config_revalidation_atomic.2.2.2.1 (.multi barBazObjectives) none
      (some barBazThresholds) none mooThresholdConfig rfl,
    (config_revalidation_atomic.2.2.2.2.1 mooDemoConfig
      (.scalarized [{ name := "s" }] [1] true)).1 _ rfl,
    (config_revalidation_atomic.2.2.2.2.1 mooDemoConfig
      (.single { metric := { name := "q" }, minimize := true })).2 _ rfl,
    (config_revalidation_atomic.2.2.2.2.2.1 mooDemoConfig [quxConstraint]).1
      (by rfl) _ rfl,
    (config_revalidation_atomic.2.2.2.2.2.1 mooDemoConfig [barConstraint]).2 _ rfl,
    (config_revalidation_atomic.2.2.2.2.2.2 mooDemoConfig barBazThresholds).1
      (by rfl) _ rfl,
    (config_revalidation_atomic.2.2.2.2.2.2 mooDemoConfig [misalignedBarThreshold]).2
      _ rfl⟩

end AxVerify
